import Mathlib

/-!
Shallow embedding of the browser client `src/web/app.js` of the `amms`
repository, and proofs about the claims of its specification.

Modelling conventions used throughout:

* JavaScript values that cross the network are modelled by the inductive
  type `Json` (JS numbers are modelled by `ℚ`; IEEE-754 formatting is kept
  abstract where a claim mentions it).
* Browser built-ins that are external to the repository are modelled as
  explicit inputs: a `fetch` response is a `JsResponse` record carrying the
  outcome that `res.text()` / `res.json()` would produce; `parseFloat`,
  `parseInt(_, 10)` and `JSON.parse` are taken as function parameters of the
  handlers that call them (`String → Option ℚ`, `String → Option Int`,
  `String → Except String Json`, where `none` models `NaN` and
  `Except.error` models a thrown `SyntaxError` whose `message` is carried).
* DOM elements are modelled by `Option String` (their `textContent`;
  `none` models an element missing from the page), and each event handler
  becomes a pure function from its inputs to the writes it performs and the
  request it issues.
-/

namespace App

/-- JSON values, as produced by `JSON.parse` and consumed by the client. -/
inductive Json where
  | null : Json
  | bool (b : Bool) : Json
  | num (q : ℚ) : Json
  | str (s : String) : Json
  | arr (elems : List Json) : Json
  | obj (fields : List (String × Json)) : Json

mutual

/-- Compact serialization of a `Json` value, modelling `JSON.stringify(v)`
(one argument, no pretty-printing). -/
def Json.stringify : Json → String
  | .null => "null"
  | .bool true => "true"
  | .bool false => "false"
  | .num q => toString q
  | .str s => "\"" ++ s ++ "\""
  | .arr elems => "[" ++ stringifyElems elems ++ "]"
  | .obj fields => "\x7b" ++ stringifyFields fields ++ "\x7d"

/-- Comma-separated serialization of the elements of a JSON array. -/
def stringifyElems : List Json → String
  | [] => ""
  | [v] => Json.stringify v
  | v :: rest => Json.stringify v ++ "," ++ stringifyElems rest

/-- Comma-separated serialization of the key/value pairs of a JSON object. -/
def stringifyFields : List (String × Json) → String
  | [] => ""
  | [(k, v)] => "\"" ++ k ++ "\":" ++ Json.stringify v
  | (k, v) :: rest => "\"" ++ k ++ "\":" ++ Json.stringify v ++ "," ++ stringifyFields rest

end

/-- A `fetch` `Response` as observed by the `api` helper: its `ok` flag and
`statusText`, the text its `res.text()` would yield, and the outcome of
`res.json()` (`Except.error msg` models the `SyntaxError` rejection raised
on a body that is not valid JSON, carrying the engine's error message). -/
structure JsResponse where
  ok : Bool
  statusText : String
  bodyText : String
  jsonBody : Except String Json

/-- A failure escaping the `api` helper: either the `Error` it explicitly
throws on a non-ok response, or the `SyntaxError` from `res.json()`. -/
inductive ApiFailure where
  | httpError (message : String) : ApiFailure
  | jsonParseError (message : String) : ApiFailure
deriving DecidableEq

/-- The `message` property of the thrown error. -/
def ApiFailure.message : ApiFailure → String
  | .httpError m => m
  | .jsonParseError m => m

/-- The response-handling continuation of the `api` helper (app.js lines
23–28): on a non-ok response it reads the body text and throws an `Error`
whose message is `body || res.statusText`; otherwise it returns `res.json()`,
whose rejection (body not valid JSON) propagates as a failure. -/
def api (res : JsResponse) : Except ApiFailure Json :=
  if res.ok = false then
    Except.error (.httpError (if res.bodyText = "" then res.statusText else res.bodyText))
  else
    match res.jsonBody with
    | .ok j => Except.ok j
    | .error m => Except.error (.jsonParseError m)

/-- HTTP method of a request issued through `fetch` (`get` is the `fetch`
default, used whenever the call site passes no `method` option). -/
inductive Method where
  | get : Method
  | post : Method
deriving DecidableEq

/-- The call sites of the `api` helper in `app.js` — by inspection of the
source this list is exhaustive, and `fetch` occurs nowhere outside `api`,
so these are all network requests the client ever issues:
`refreshMetrics` (l.47), `refreshTasks` (l.57), `refreshViz` (l.71),
`refreshHopfionField` (l.80), the submit-task click handler (l.104), the
start-research click handler (l.135), the LLM-query click handler (l.161),
the EQGFT run click handler (l.228), and — inside the EQGFT send-to-LLM
click handler — the plan call (l.245), the task submission (l.252) and the
status poll (l.258), the last parametrised by the polled `task_id`. -/
inductive CallSite where
  | refreshMetricsCall : CallSite
  | refreshTasksCall : CallSite
  | refreshVizCall : CallSite
  | refreshHopfionFieldCall : CallSite
  | submitTaskCall : CallSite
  | startResearchCall : CallSite
  | llmQueryCall : CallSite
  | eqgftRunCall : CallSite
  | eqgftPlanCall : CallSite
  | eqgftSubmitCall : CallSite
  | eqgftPollCall (task_id : String) : CallSite
deriving DecidableEq

/-- The `path` argument each call site passes to `api`. -/
def sitePath : CallSite → String
  | .refreshMetricsCall => "/metrics"
  | .refreshTasksCall => "/tasks"
  | .refreshVizCall => "/visualization/packet"
  | .refreshHopfionFieldCall => "/visualization/hopfion-field"
  | .submitTaskCall => "/tasks"
  | .startResearchCall => "/llm/research-campaign"
  | .llmQueryCall => "/llm/query"
  | .eqgftRunCall => "/tasks"
  | .eqgftPlanCall => "/llm/plan-eqgft-task"
  | .eqgftSubmitCall => "/tasks"
  | .eqgftPollCall task_id => "/tasks/" ++ task_id

/-- The HTTP method each call site uses: `POST` exactly where the source
passes `method: 'POST'`, the `fetch` default `GET` everywhere else. -/
def siteMethod : CallSite → Method
  | .submitTaskCall => .post
  | .startResearchCall => .post
  | .llmQueryCall => .post
  | .eqgftRunCall => .post
  | .eqgftPlanCall => .post
  | .eqgftSubmitCall => .post
  | _ => .get

/-- URL construction of the `api` helper: it prepends `/api` to the path. -/
def apiUrl (path : String) : String := "/api" ++ path

/-- The full URL a call site requests. -/
def requestUrl (s : CallSite) : String := apiUrl (sitePath s)

/-- The nine endpoint/method pairs enumerated in the specification. -/
def matchesSpecEndpoint (m : Method) (url : String) : Prop :=
  (m = .get ∧ url = "/api/metrics") ∨
  (m = .get ∧ url = "/api/tasks") ∨
  (m = .post ∧ url = "/api/tasks") ∨
  (m = .get ∧ ∃ task_id, url = "/api/tasks/" ++ task_id) ∨
  (m = .get ∧ url = "/api/visualization/packet") ∨
  (m = .get ∧ url = "/api/visualization/hopfion-field") ∨
  (m = .post ∧ url = "/api/llm/query") ∨
  (m = .post ∧ url = "/api/llm/research-campaign") ∨
  (m = .post ∧ url = "/api/llm/plan-eqgft-task")

/-- Where a failure of an `api` call ends up, read off the `try`/`catch`
structure of the source around each call site. -/
inductive FailureSink where
  | element (elementId : String) : FailureSink
  | uncaughtRejection : FailureSink
deriving DecidableEq

/-- The failure sink of each call site. Every call site sits inside a
`try { ... } catch (err)` that writes the message into a DOM element —
except the poll (l.258): it runs inside the asynchronous callback passed to
`setInterval`, which executes after the enclosing handler's `try` block has
already completed, and the callback body itself has no `try`/`catch`, so a
rejection of its `await api(...)` is an unhandled promise rejection. -/
def failureSink : CallSite → FailureSink
  | .refreshMetricsCall => .element "metrics"
  | .refreshTasksCall => .element "task-list"
  | .refreshVizCall => .element "viz-packet"
  | .refreshHopfionFieldCall => .element "eqgft-response"
  | .submitTaskCall => .element "status"
  | .startResearchCall => .element "research-result"
  | .llmQueryCall => .element "llm-response"
  | .eqgftRunCall => .element "status"
  | .eqgftPlanCall => .element "eqgft-response"
  | .eqgftSubmitCall => .element "eqgft-response"
  | .eqgftPollCall _ => .uncaughtRejection

/-! ### The EQGFT send-to-LLM polling timer (app.js lines 257–265) -/

/-- The period, in milliseconds, passed to `setInterval` for the task
status poll. -/
def pollIntervalMs : Nat := 1000

/-- The polled task object, restricted to the one field the callback
reads: `status` (an arbitrary JSON value in general). -/
structure PolledTask where
  status : Json

/-- Whether a JSON value satisfies `=== 'Completed'`: strict equality with
a string literal holds only for that exact string, never for a value of
another type. -/
def Json.isCompletedLit : Json → Bool
  | .str s => s == "Completed"
  | _ => false

/-- The observable effect of one firing of the poll callback. -/
structure PollTickEffect where
  cancel : Bool
  statusText : Option String
  didRefreshMetrics : Bool
  didRefreshViz : Bool
deriving DecidableEq

/-- One firing of the `setInterval` callback, as a function of the outcome
of its `await api('/tasks/' + task_id)`: if the awaited call rejects, the
callback aborts with no write and no `clearInterval`; on a response whose
`status` field strictly equals `'Completed'` it cancels the timer, sets the
status line and refreshes metrics and the visualization packet; on any
other response it does nothing. -/
def pollTick : Except ApiFailure PolledTask → PollTickEffect
  | .error _ => ⟨false, none, false, false⟩
  | .ok t =>
    if t.status.isCompletedLit then ⟨true, some "EQGFT task completed.", true, true⟩
    else ⟨false, none, false, false⟩

/-- Whether the interval is still registered just before tick `n`, given
the stream of outcomes the polls (would) observe: it starts active and
stays active until some tick cancels it. -/
def pollActive (responses : Nat → Except ApiFailure PolledTask) : Nat → Bool
  | 0 => true
  | n + 1 => pollActive responses n && !(pollTick (responses n)).cancel

/-! ### The EQGFT run click handler (app.js lines 193–241) -/

/-- The form inputs the EQGFT run handler reads (raw string values). -/
structure EqgftFormInputs where
  vizType : String
  nEvents : String
  kappa : String
  systematicError : String
  pythonScript : String

/-- The `parameters` object of the task payload: one of the three shapes
the handler builds. `Option ℚ` / `Option Int` are `parseFloat` /
`parseInt` results, `none` modelling `NaN`. -/
inductive EqgftParams where
  | scriptParams (script : String) : EqgftParams
  | asymmetryParams (kappa : Option ℚ) (n_events : Option Int)
      (systematic_error : Option ℚ) : EqgftParams
  | emptyParams : EqgftParams
deriving DecidableEq

/-- The `task` object of the POST /api/tasks payload. -/
structure EqgftTask where
  task_name : String
  geometric_operator : String
  parameters : EqgftParams
deriving DecidableEq

/-- The whole request body of a POST to `/api/tasks`. -/
structure TasksPostBody where
  task : EqgftTask
  execute : Bool
deriving DecidableEq

/-- The task object built by the EQGFT run handler from the selected
visualization type and the form inputs (`parseFloatJs` and `parseIntJs`
stand for the JS `parseFloat` and `parseInt` built-ins). -/
def buildEqgftTask (parseFloatJs : String → Option ℚ) (parseIntJs : String → Option Int)
    (inp : EqgftFormInputs) : EqgftTask :=
  if inp.vizType = "custom-python-script" then
    { task_name := "Custom Python Script"
      geometric_operator := "CustomPythonScript"
      parameters := .scriptParams inp.pythonScript }
  else if inp.vizType = "line-plot" then
    { task_name := "Simulate EQGFT Asymmetry"
      geometric_operator := "SimulateEqgftAsymmetry"
      parameters := .asymmetryParams (parseFloatJs inp.kappa) (parseIntJs inp.nEvents)
        (parseFloatJs inp.systematicError) }
  else
    { task_name := "Generate Hopfion Field"
      geometric_operator := "GenerateHopfionField"
      parameters := .emptyParams }

/-- The request body the EQGFT run handler posts:
`{ task: task, execute: true }`. -/
def eqgftRunBody (parseFloatJs : String → Option ℚ) (parseIntJs : String → Option Int)
    (inp : EqgftFormInputs) : TasksPostBody :=
  { task := buildEqgftTask parseFloatJs parseIntJs inp, execute := true }

/-! ### updatePhysicsConstants (app.js lines 31–43) -/

/-- The four fields `updatePhysicsConstants` reads from the metrics
object (JS numbers, modelled by `ℚ`). -/
structure PhysicsMetrics where
  emergent_electron_mass : ℚ
  fine_structure_constant : ℚ
  quaternion_coherence : ℚ
  topological_winding : ℚ

/-- The four DOM elements `updatePhysicsConstants` writes, each an
`Option String` holding its `textContent` (`none`: missing element). -/
structure PhysicsDom where
  electronMassEl : Option String
  fineStructureEl : Option String
  coherenceEl : Option String
  windingEl : Option String
deriving DecidableEq

/-- `updatePhysicsConstants`, with the IEEE-754 formatters
`Number.prototype.toExponential` / `toFixed` kept abstract as the function
parameters `toExponential` / `toFixed` (applied at the precisions the
source passes). Returns `.ok` with the resulting DOM; `.error` models the
`TypeError` thrown when a later element is missing, carrying the partially
updated DOM at the point of the throw. The source returns early when the
metrics argument is falsy or the electron-mass element is missing. -/
def updatePhysicsConstants (toExponential : ℚ → Nat → String) (toFixed : ℚ → Nat → String)
    (metrics : Option PhysicsMetrics) (dom : PhysicsDom) : Except PhysicsDom PhysicsDom :=
  match metrics, dom.electronMassEl with
  | none, _ => .ok dom
  | some _, none => .ok dom
  | some m, some _ =>
    let d1 : PhysicsDom :=
      { dom with electronMassEl := some (toExponential m.emergent_electron_mass 10 ++ " kg") }
    match d1.fineStructureEl with
    | none => .error d1
    | some _ =>
      let d2 : PhysicsDom :=
        { d1 with fineStructureEl := some (toExponential m.fine_structure_constant 10) }
      match d2.coherenceEl with
      | none => .error d2
      | some _ =>
        let d3 : PhysicsDom :=
          { d2 with coherenceEl := some (toFixed m.quaternion_coherence 6) }
        match d3.windingEl with
        | none => .error d3
        | some _ => .ok { d3 with windingEl := some (toFixed m.topological_winding 4) }

/-! ### refreshHopfionField (app.js lines 78–99) -/

/-- One element of the `q_x` list: a 4-tuple, `cI` modelling the JS array
access `v[I]`. -/
structure Quaternion4 where
  c0 : ℚ
  c1 : ℚ
  c2 : ℚ
  c3 : ℚ
deriving DecidableEq

/-- The hopfion-field payload, restricted to the one field read: `q_x`. -/
structure HopfionFieldData where
  q_x : List Quaternion4

/-- The cone trace handed to `Plotly.newPlot`. -/
structure ConeTrace where
  plotType : String
  x : List ℚ
  y : List ℚ
  z : List ℚ
  u : List ℚ
  v : List ℚ
  w : List ℚ
  sizemode : String
  sizeref : ℚ
deriving DecidableEq

/-- The success path of `refreshHopfionField`: given the (parsed) payload
returned by GET `/visualization/hopfion-field`, the trace plotted, or
`none` when the `if (data)` guard fails and nothing is plotted. -/
def refreshHopfionField (data : Option HopfionFieldData) : Option ConeTrace :=
  match data with
  | none => none
  | some d =>
    some
      { plotType := "cone"
        x := d.q_x.map Quaternion4.c1
        y := d.q_x.map Quaternion4.c2
        z := d.q_x.map Quaternion4.c3
        u := d.q_x.map Quaternion4.c1
        v := d.q_x.map Quaternion4.c2
        w := d.q_x.map Quaternion4.c3
        sizemode := "absolute"
        sizeref := 1 }

/-! ### refreshTasks (app.js lines 55–67) -/

/-- One item of the GET `/api/tasks` response, restricted to the two
fields read: `task_id` and `status` (`status` an arbitrary JSON value,
serialized with `JSON.stringify` when rendered). -/
structure TaskListItem where
  task_id : String
  status : Json

/-- A table cell: its `colspan` and its text content. -/
structure TableCell where
  colspan : Nat
  text : String
deriving DecidableEq

/-- The row `refreshTasks` appends for one task:
`<td>task_id</td><td>JSON.stringify(status)</td>`. -/
def taskRow (t : TaskListItem) : List TableCell :=
  [⟨1, t.task_id⟩, ⟨1, Json.stringify t.status⟩]

/-- The table body after `refreshTasks` handles the outcome of its
`api('/tasks')` call, as a function of the previous table contents (which
the success path first clears with `innerHTML = ''`) and the response: on
success one row per task in order; on failure a single row whose one cell
spans both columns and contains the error message. -/
def refreshTasksTable (_oldRows : List (List TableCell))
    (resp : Except ApiFailure (List TaskListItem)) : List (List TableCell) :=
  match resp with
  | .ok tasks => tasks.map taskRow
  | .error e => [[⟨2, e.message⟩]]

/-! ### The start-research click handler (app.js lines 116–152) -/

/-- The form inputs the start-research handler reads; `none` models a
missing element (the source guards every read with `?.`). -/
structure ResearchFormInputs where
  goal : Option String
  target : Option String
  targetValue : Option String
  steps : Option String
  context : Option String

/-- The body of the POST `/llm/research-campaign` request. -/
structure ResearchCampaignBody where
  goal : String
  optimization_target : String
  target_value : ℚ
  max_steps : Int
  context : Json

/-- What the handler does before any response arrives: either it rejects
the context JSON — writing only the result element and issuing no request —
or it writes the running message to the result element and issues the
request with the given body. -/
inductive ResearchOutcome where
  | invalidContext (resultMsg : String) : ResearchOutcome
  | issued (resultMsg : String) (body : ResearchCampaignBody) : ResearchOutcome

/-- The request body carried by an outcome, if one is issued. -/
def researchRequestOf : ResearchOutcome → Option ResearchCampaignBody
  | .invalidContext _ => none
  | .issued _ body => some body

/-- Model of `String.prototype.trim`: strip leading and trailing
whitespace. -/
def jsTrim (s : String) : String :=
  String.mk (((s.data.dropWhile Char.isWhitespace).reverse.dropWhile
    Char.isWhitespace).reverse)

/-- JS `x || dflt` on an optional string: the default when the value is
absent (`undefined`) or the empty string (both falsy). -/
def jsStringOr (x : Option String) (dflt : String) : String :=
  match x with
  | none => dflt
  | some s => if s = "" then dflt else s

/-- The default campaign goal literal of app.js line 117. -/
def campaignDefaultGoal : String := "Достичь topological_winding = 9.0000"

/-- Line 117, `researchGoalEl?.value.trim() || '…'`: the trimmed goal
input, or the literal default when the element is absent or the trimmed
value is the (falsy) empty string. -/
def campaignGoalField (goal : Option String) : String :=
  match goal with
  | none => campaignDefaultGoal
  | some s => if jsTrim s = "" then campaignDefaultGoal else jsTrim s

/-- Line 118, `researchTargetEl?.value.trim() || 'topological_winding'`. -/
def campaignTargetField (target : Option String) : String :=
  match target with
  | none => "topological_winding"
  | some s => if jsTrim s = "" then "topological_winding" else jsTrim s

/-- Line 119, `parseFloat(researchTargetValueEl?.value || '0') || 0`
(`none` models `NaN`, which is falsy, as is `0` itself). -/
def campaignTargetValueField (parseFloatJs : String → Option ℚ)
    (targetValue : Option String) : ℚ :=
  match parseFloatJs (jsStringOr targetValue "0") with
  | none => 0
  | some q => if q = 0 then 0 else q

/-- Line 120, `parseInt(researchStepsEl?.value || '5', 10) || 5`. -/
def campaignMaxStepsField (parseIntTen : String → Option Int)
    (steps : Option String) : Int :=
  match parseIntTen (jsStringOr steps "5") with
  | none => 5
  | some n => if n = 0 then 5 else n

/-- Lines 121–130: the context payload starts as `{}` and is replaced by
`JSON.parse(researchContextEl.value)` whenever the context value trims to
a non-empty string; a thrown parse error is reported as `.error`. -/
def campaignContextPayload (parseJson : String → Except String Json) :
    Option String → Except String Json
  | none => .ok (Json.obj [])
  | some s => if jsTrim s = "" then .ok (Json.obj []) else parseJson s

/-- The start-research click handler up to the point the request is issued
(app.js lines 116–144). `parseFloatJs`, `parseIntTen` and `parseJson`
stand for `parseFloat`, `parseInt(_, 10)` and `JSON.parse`; each `let` of
the source is one of the `campaign*Field` definitions above. On a context
parse error the handler writes the invalid-context message into the
result element and returns before issuing any request; otherwise it
writes the running message and posts the five-field body. -/
def startResearchHandler (parseFloatJs : String → Option ℚ) (parseIntTen : String → Option Int)
    (parseJson : String → Except String Json) (inp : ResearchFormInputs) : ResearchOutcome :=
  match campaignContextPayload parseJson inp.context with
  | .error e => .invalidContext ("Invalid context JSON: " ++ e)
  | .ok ctx =>
    .issued "Running research campaign…"
      { goal := campaignGoalField inp.goal
        optimization_target := campaignTargetField inp.target
        target_value := campaignTargetValueField parseFloatJs inp.targetValue
        max_steps := campaignMaxStepsField parseIntTen inp.steps
        context := ctx }

/-! ## Helper lemmas -/

lemma isCompletedLit_iff (j : Json) :
    j.isCompletedLit = true ↔ j = Json.str "Completed" := by
  cases j <;> simp [Json.isCompletedLit]

lemma pollTick_cancel_iff (r : Except ApiFailure PolledTask) :
    (pollTick r).cancel = true ↔
      ∃ t, r = Except.ok t ∧ t.status = Json.str "Completed" := by
  cases r with
  | error e =>
    constructor
    · intro hc
      cases hc
    · rintro ⟨t, ht, _⟩
      cases ht
  | ok t =>
    constructor
    · intro hc
      refine ⟨t, rfl, ?_⟩
      cases hlit : t.status.isCompletedLit with
      | true => exact (isCompletedLit_iff t.status).mp hlit
      | false => simp [pollTick, hlit] at hc
    · rintro ⟨t2, ht, hst⟩
      injection ht with ht2
      subst ht2
      simp only [pollTick]
      rw [hst]
      rfl

lemma pollActive_zero (responses : Nat → Except ApiFailure PolledTask) :
    pollActive responses 0 = true := rfl

lemma pollActive_succ_eq (responses : Nat → Except ApiFailure PolledTask) (n : Nat) :
    pollActive responses (n + 1) =
      (pollActive responses n && !(pollTick (responses n)).cancel) := rfl

lemma pollActive_false_iff (responses : Nat → Except ApiFailure PolledTask) (n : Nat) :
    pollActive responses (n + 1) = false ↔
      ∃ m, m ≤ n ∧ (pollTick (responses m)).cancel = true := by
  induction n with
  | zero =>
    rw [pollActive_succ_eq, pollActive_zero, Bool.true_and]
    constructor
    · intro h
      refine ⟨0, Nat.le_refl 0, ?_⟩
      cases hcc : (pollTick (responses 0)).cancel with
      | true => rfl
      | false => rw [hcc] at h; cases h
    · rintro ⟨m, hm, hc⟩
      have hm0 : m = 0 := Nat.le_zero.mp hm
      subst hm0
      rw [hc]
      rfl
  | succ n ih =>
    rw [pollActive_succ_eq]
    constructor
    · intro h
      cases hA : pollActive responses (n + 1) with
      | false =>
        obtain ⟨m, hm, hc⟩ := ih.mp hA
        exact ⟨m, Nat.le_succ_of_le hm, hc⟩
      | true =>
        cases hC : (pollTick (responses (n + 1))).cancel with
        | true => exact ⟨n + 1, Nat.le_refl _, hC⟩
        | false => rw [hA, hC] at h; simp at h
    · rintro ⟨m, hm, hc⟩
      rcases Nat.lt_or_ge m (n + 1) with hlt | hge
      · rw [ih.mpr ⟨m, Nat.lt_succ_iff.mp hlt, hc⟩]
        rfl
      · have hmeq : m = n + 1 := Nat.le_antisymm hm hge
        subst hmeq
        rw [hc]
        simp

lemma pollActive_of_never_cancel (responses : Nat → Except ApiFailure PolledTask)
    (h : ∀ n, (pollTick (responses n)).cancel = false) :
    ∀ n, pollActive responses n = true := by
  intro n
  induction n with
  | zero => rfl
  | succ n ih =>
    rw [pollActive_succ_eq, ih, h n]
    rfl

/-! ## Claim theorems -/

/-- C1: after the EQGFT send-to-LLM handler submits the planned task, a
repeating timer with fixed 1000 ms period polls GET `/api/tasks/{task_id}`;
a tick cancels the timer exactly when the polled response carries a
`status` field strictly equal to the string `Completed` — at which point
the status line is set and the metrics and the visualization packet are
refreshed — and for a stream of responses whose status is never
`Completed` (failures included) the timer stays registered at every tick:
no backoff, no timeout. -/
theorem poll_timer_cancels_iff_completed :
    pollIntervalMs = 1000
    ∧ (∀ task_id, siteMethod (CallSite.eqgftPollCall task_id) = Method.get
        ∧ requestUrl (CallSite.eqgftPollCall task_id) = "/api/tasks/" ++ task_id)
    ∧ (∀ r, (pollTick r).cancel = true ↔
        ∃ t, r = Except.ok t ∧ t.status = Json.str "Completed")
    ∧ (∀ t : PolledTask, t.status = Json.str "Completed" →
        pollTick (Except.ok t) = ⟨true, some "EQGFT task completed.", true, true⟩)
    ∧ (∀ responses : Nat → Except ApiFailure PolledTask, ∀ n,
        pollActive responses (n + 1) = false ↔
          ∃ m, m ≤ n ∧ (pollTick (responses m)).cancel = true)
    ∧ (∀ responses : Nat → Except ApiFailure PolledTask,
        (∀ n, (pollTick (responses n)).cancel = false) →
          ∀ n, pollActive responses n = true) := by
  refine ⟨rfl, ?_, pollTick_cancel_iff, ?_, pollActive_false_iff, ?_⟩
  · intro task_id
    refine ⟨rfl, ?_⟩
    show "/api" ++ ("/tasks/" ++ task_id) = "/api/tasks/" ++ task_id
    rw [← String.append_assoc]
    rfl
  · intro t h
    simp only [pollTick]
    rw [h]
    rfl
  · intro responses h n
    exact pollActive_of_never_cancel responses h n

/-- Witness for C1: a stream of failing polls never cancels the timer. -/
theorem poll_timer_cancels_iff_completed_witness :
    pollActive (fun _ => Except.error (ApiFailure.httpError "net down")) 4 = true :=
  poll_timer_cancels_iff_completed.2.2.2.2.2
    (fun _ => Except.error (ApiFailure.httpError "net down")) (fun _ => rfl) 4

/-- C2 counterexample: the GET `/api/tasks/{task_id}` call made inside the
polling timer callback has no handler at its call site — its failure is an
unhandled promise rejection, written to no DOM element — refuting the
claim that every API-call failure is caught at the call site. -/
theorem poll_call_failure_uncaught :
    failureSink (CallSite.eqgftPollCall "task-1") = FailureSink.uncaughtRejection := rfl

/-- C2 amended: every api call site except the status poll inside the
EQGFT send-to-LLM timer callback catches failures at the call site and
writes the error message into a DOM element; the poll call site alone has
no catch and its failure escapes as an unhandled rejection. -/
theorem api_failures_caught_except_poll (s : CallSite) :
    (∃ elementId, failureSink s = FailureSink.element elementId)
      ↔ ∀ task_id, s ≠ CallSite.eqgftPollCall task_id := by
  cases s
  case eqgftPollCall task_id =>
    constructor
    · rintro ⟨e, he⟩
      cases he
    · intro h
      exact absurd rfl (h task_id)
  all_goals exact ⟨fun _ task_id h => (nomatch h), fun _ => ⟨_, rfl⟩⟩

/-- Witness for C2 (amended): the metrics refresh call site catches its
failures into the metrics element. -/
theorem api_failures_caught_except_poll_witness :
    ∃ elementId, failureSink CallSite.refreshMetricsCall = FailureSink.element elementId :=
  (api_failures_caught_except_poll CallSite.refreshMetricsCall).mpr
    (fun _ h => nomatch h)

/-- C3: the POST `/api/tasks` body built by the EQGFT run click handler
always has `execute = true`, and its `task` field takes exactly one of
three shapes chosen by the selected visualization type: the
CustomPythonScript task with a `script` parameter for
`custom-python-script`; the SimulateEqgftAsymmetry task with `kappa`,
`n_events` and `systematic_error` parsed as numbers from the form inputs
for `line-plot`; and the GenerateHopfionField task with empty parameters
for every other type value. -/
theorem eqgftRunBody_shape (parseFloatJs : String → Option ℚ)
    (parseIntJs : String → Option Int) (inp : EqgftFormInputs) :
    (eqgftRunBody parseFloatJs parseIntJs inp).execute = true
    ∧ (inp.vizType = "custom-python-script" →
        (eqgftRunBody parseFloatJs parseIntJs inp).task =
          ⟨"Custom Python Script", "CustomPythonScript",
            EqgftParams.scriptParams inp.pythonScript⟩)
    ∧ (inp.vizType = "line-plot" →
        (eqgftRunBody parseFloatJs parseIntJs inp).task =
          ⟨"Simulate EQGFT Asymmetry", "SimulateEqgftAsymmetry",
            EqgftParams.asymmetryParams (parseFloatJs inp.kappa)
              (parseIntJs inp.nEvents) (parseFloatJs inp.systematicError)⟩)
    ∧ (inp.vizType ≠ "custom-python-script" → inp.vizType ≠ "line-plot" →
        (eqgftRunBody parseFloatJs parseIntJs inp).task =
          ⟨"Generate Hopfion Field", "GenerateHopfionField",
            EqgftParams.emptyParams⟩) := by
  refine ⟨rfl, ?_, ?_, ?_⟩
  · intro h
    simp [eqgftRunBody, buildEqgftTask, h]
  · intro h
    simp [eqgftRunBody, buildEqgftTask, h]
  · intro h1 h2
    simp [eqgftRunBody, buildEqgftTask, h1, h2]

/-- Witness for C3: the line-plot selection builds the asymmetry task. -/
theorem eqgftRunBody_shape_witness :
    (eqgftRunBody (fun _ => none) (fun _ => none)
        ⟨"line-plot", "100", "1.5", "0.1", ""⟩).task =
      ⟨"Simulate EQGFT Asymmetry", "SimulateEqgftAsymmetry",
        EqgftParams.asymmetryParams none none none⟩ :=
  (eqgftRunBody_shape (fun _ => none) (fun _ => none)
      ⟨"line-plot", "100", "1.5", "0.1", ""⟩).2.2.1 rfl

/-- C4: every request the client issues is made through the `api` helper,
which prepends `/api` to the call path, and each of the call sites targets
one of the nine endpoint/method pairs of the specification. -/
theorem every_request_matches_spec_endpoint (s : CallSite) :
    requestUrl s = apiUrl (sitePath s)
    ∧ matchesSpecEndpoint (siteMethod s) (requestUrl s) := by
  refine ⟨rfl, ?_⟩
  cases s with
  | refreshMetricsCall => exact Or.inl ⟨rfl, rfl⟩
  | refreshTasksCall => exact Or.inr (Or.inl ⟨rfl, rfl⟩)
  | refreshVizCall =>
    exact Or.inr (Or.inr (Or.inr (Or.inr (Or.inl ⟨rfl, rfl⟩))))
  | refreshHopfionFieldCall =>
    exact Or.inr (Or.inr (Or.inr (Or.inr (Or.inr (Or.inl ⟨rfl, rfl⟩)))))
  | submitTaskCall => exact Or.inr (Or.inr (Or.inl ⟨rfl, rfl⟩))
  | startResearchCall =>
    exact Or.inr (Or.inr (Or.inr (Or.inr (Or.inr (Or.inr (Or.inr
      (Or.inl ⟨rfl, rfl⟩)))))))
  | llmQueryCall =>
    exact Or.inr (Or.inr (Or.inr (Or.inr (Or.inr (Or.inr (Or.inl ⟨rfl, rfl⟩))))))
  | eqgftRunCall => exact Or.inr (Or.inr (Or.inl ⟨rfl, rfl⟩))
  | eqgftPlanCall =>
    exact Or.inr (Or.inr (Or.inr (Or.inr (Or.inr (Or.inr (Or.inr
      (Or.inr ⟨rfl, rfl⟩)))))))
  | eqgftSubmitCall => exact Or.inr (Or.inr (Or.inl ⟨rfl, rfl⟩))
  | eqgftPollCall task_id =>
    refine Or.inr (Or.inr (Or.inr (Or.inl ⟨rfl, task_id, ?_⟩)))
    show "/api" ++ ("/tasks/" ++ task_id) = "/api/tasks/" ++ task_id
    rw [← String.append_assoc]
    rfl

/-- C5: `updatePhysicsConstants` returns without touching any element when
the metrics argument is absent or the electron-mass element is missing;
otherwise, with all four elements present, it writes exactly the four
metric fields into them — exponential formatting at precision 10 for the
electron mass (suffixed with a space and `kg`) and the fine-structure
constant, fixed formatting at 6 digits for the quaternion coherence and at
4 digits for the topological winding. -/
theorem updatePhysicsConstants_spec (toExponential toFixed : ℚ → Nat → String)
    (metrics : Option PhysicsMetrics) (dom : PhysicsDom) :
    ((metrics = none ∨ dom.electronMassEl = none) →
      updatePhysicsConstants toExponential toFixed metrics dom = Except.ok dom)
    ∧ (∀ m a b c d, metrics = some m → dom = ⟨some a, some b, some c, some d⟩ →
        updatePhysicsConstants toExponential toFixed metrics dom =
          Except.ok ⟨some (toExponential m.emergent_electron_mass 10 ++ " kg"),
            some (toExponential m.fine_structure_constant 10),
            some (toFixed m.quaternion_coherence 6),
            some (toFixed m.topological_winding 4)⟩) := by
  constructor
  · rintro (rfl | he)
    · rfl
    · obtain ⟨e1, e2, e3, e4⟩ := dom
      cases metrics with
      | none => rfl
      | some m =>
        have h1 : e1 = none := he
        subst h1
        rfl
  · rintro m a b c d rfl rfl
    rfl

/-- Witness for C5: concrete metrics and a full page update all four
elements. -/
theorem updatePhysicsConstants_spec_witness :
    updatePhysicsConstants (fun _ _ => "E") (fun _ _ => "F")
        (some ⟨1, 2, 3, 4⟩) ⟨some "", some "", some "", some ""⟩ =
      Except.ok ⟨some ("E" ++ " kg"), some "E", some "F", some "F"⟩ :=
  (updatePhysicsConstants_spec (fun _ _ => "E") (fun _ _ => "F")
      (some ⟨1, 2, 3, 4⟩) ⟨some "", some "", some "", some ""⟩).2
    ⟨1, 2, 3, 4⟩ "" "" "" "" rfl rfl

/-- C6: `refreshHopfionField` reads components 1, 2 and 3 of every `q_x`
element (never component 0) as the cone positions, and passes the same
three component lists as the cone directions, so the plotted direction
field equals the position field elementwise. -/
theorem refreshHopfionField_spec (d : HopfionFieldData) (tr : ConeTrace)
    (h : refreshHopfionField (some d) = some tr) :
    tr.x = d.q_x.map Quaternion4.c1
    ∧ tr.y = d.q_x.map Quaternion4.c2
    ∧ tr.z = d.q_x.map Quaternion4.c3
    ∧ tr.u = tr.x ∧ tr.v = tr.y ∧ tr.w = tr.z := by
  injection h with h2
  subst h2
  exact ⟨rfl, rfl, rfl, rfl, rfl, rfl⟩

/-- Witness for C6: a one-point field plots position (1, 2, 3) with
direction (1, 2, 3), ignoring component 0 (here 5). -/
theorem refreshHopfionField_spec_witness :
    ((⟨"cone", [1], [2], [3], [1], [2], [3], "absolute", 1⟩ : ConeTrace).x =
        ([⟨5, 1, 2, 3⟩] : List Quaternion4).map Quaternion4.c1)
    ∧ ((⟨"cone", [1], [2], [3], [1], [2], [3], "absolute", 1⟩ : ConeTrace).y =
        ([⟨5, 1, 2, 3⟩] : List Quaternion4).map Quaternion4.c2)
    ∧ ((⟨"cone", [1], [2], [3], [1], [2], [3], "absolute", 1⟩ : ConeTrace).z =
        ([⟨5, 1, 2, 3⟩] : List Quaternion4).map Quaternion4.c3)
    ∧ ((⟨"cone", [1], [2], [3], [1], [2], [3], "absolute", 1⟩ : ConeTrace).u =
        (⟨"cone", [1], [2], [3], [1], [2], [3], "absolute", 1⟩ : ConeTrace).x)
    ∧ ((⟨"cone", [1], [2], [3], [1], [2], [3], "absolute", 1⟩ : ConeTrace).v =
        (⟨"cone", [1], [2], [3], [1], [2], [3], "absolute", 1⟩ : ConeTrace).y)
    ∧ ((⟨"cone", [1], [2], [3], [1], [2], [3], "absolute", 1⟩ : ConeTrace).w =
        (⟨"cone", [1], [2], [3], [1], [2], [3], "absolute", 1⟩ : ConeTrace).z) :=
  refreshHopfionField_spec ⟨[⟨5, 1, 2, 3⟩]⟩
    ⟨"cone", [1], [2], [3], [1], [2], [3], "absolute", 1⟩ rfl

/-- C7: `refreshTasks` renders the task list into table rows independently
of the previous table contents (it clears them first): on success, exactly
one row per task, in the order received, holding the task id and the
JSON-serialized status; on failure, a single row whose one cell spans both
columns and holds the error message. -/
theorem refreshTasksTable_spec (oldRows : List (List TableCell))
    (resp : Except ApiFailure (List TaskListItem)) :
    refreshTasksTable oldRows resp = refreshTasksTable [] resp
    ∧ (∀ tasks, resp = Except.ok tasks →
        (refreshTasksTable oldRows resp).length = tasks.length
        ∧ ∀ (i : Nat) (t : TaskListItem), tasks[i]? = some t →
            (refreshTasksTable oldRows resp)[i]? =
              some [(⟨1, t.task_id⟩ : TableCell), ⟨1, Json.stringify t.status⟩])
    ∧ (∀ e, resp = Except.error e →
        refreshTasksTable oldRows resp = [[⟨2, e.message⟩]]) := by
  refine ⟨rfl, ?_, ?_⟩
  · rintro tasks rfl
    constructor
    · simp [refreshTasksTable]
    · intro i t ht
      simp [refreshTasksTable, List.getElem?_map, ht, taskRow]
  · rintro e rfl
    rfl

/-- Witness for C7: a one-task response renders one two-cell row. -/
theorem refreshTasksTable_spec_witness :
    (refreshTasksTable [[(⟨2, "old"⟩ : TableCell)]]
        (Except.ok [(⟨"t1", Json.str "Running"⟩ : TaskListItem)]))[0]? =
      some [(⟨1, "t1"⟩ : TableCell), ⟨1, Json.stringify (Json.str "Running")⟩] :=
  ((refreshTasksTable_spec [[(⟨2, "old"⟩ : TableCell)]]
      (Except.ok [(⟨"t1", Json.str "Running"⟩ : TaskListItem)])).2.1
    [⟨"t1", Json.str "Running"⟩] rfl).2 0 ⟨"t1", Json.str "Running"⟩ rfl

lemma campaignGoalField_default (g : Option String)
    (h : g = none ∨ ∃ s, g = some s ∧ jsTrim s = "") :
    campaignGoalField g = campaignDefaultGoal := by
  rcases h with rfl | ⟨s, rfl, hs⟩
  · rfl
  · simp [campaignGoalField, hs]

lemma campaignGoalField_ne_empty (g : Option String) : campaignGoalField g ≠ "" := by
  cases g with
  | none => decide
  | some s =>
    by_cases hs : jsTrim s = "" <;> simp [campaignGoalField, hs]
    decide

lemma campaignTargetField_default (g : Option String)
    (h : g = none ∨ ∃ s, g = some s ∧ jsTrim s = "") :
    campaignTargetField g = "topological_winding" := by
  rcases h with rfl | ⟨s, rfl, hs⟩
  · rfl
  · simp [campaignTargetField, hs]

lemma campaignTargetField_ne_empty (g : Option String) : campaignTargetField g ≠ "" := by
  cases g with
  | none => decide
  | some s =>
    by_cases hs : jsTrim s = "" <;> simp [campaignTargetField, hs]

lemma campaignContextPayload_empty (parseJson : String → Except String Json)
    (ctx : Option String) (h : ctx = none ∨ ∃ s, ctx = some s ∧ jsTrim s = "") :
    campaignContextPayload parseJson ctx = Except.ok (Json.obj []) := by
  rcases h with rfl | ⟨s, rfl, hs⟩
  · rfl
  · simp [campaignContextPayload, hs]

/-- C8: when the research context textarea trims to a non-empty string
that fails to parse as JSON, the start-research handler writes the
invalid-context message into the result element and returns before any
request is issued; the POST `/llm/research-campaign` request is issued
exactly when the context is absent, trims to empty, or parses as valid
JSON — and the invalid-context outcome carries no write other than the
result message. -/
theorem startResearch_invalid_context_gate (parseFloatJs : String → Option ℚ)
    (parseIntTen : String → Option Int) (parseJson : String → Except String Json)
    (inp : ResearchFormInputs) :
    (∀ s e, inp.context = some s → jsTrim s ≠ "" → parseJson s = Except.error e →
      startResearchHandler parseFloatJs parseIntTen parseJson inp =
        ResearchOutcome.invalidContext ("Invalid context JSON: " ++ e))
    ∧ ((researchRequestOf
          (startResearchHandler parseFloatJs parseIntTen parseJson inp)).isSome = true
        ↔ inp.context = none
          ∨ (∃ s, inp.context = some s ∧ jsTrim s = "")
          ∨ (∃ s j, inp.context = some s ∧ parseJson s = Except.ok j)) := by
  constructor
  · intro s e hc ht hp
    simp [startResearchHandler, campaignContextPayload, hc, ht, hp]
  · cases hc : inp.context with
    | none =>
      simp [startResearchHandler, campaignContextPayload, hc, researchRequestOf]
    | some s =>
      by_cases ht : jsTrim s = ""
      · simp [startResearchHandler, campaignContextPayload, hc, ht, researchRequestOf]
      · cases hp : parseJson s with
        | error e =>
          simp [startResearchHandler, campaignContextPayload, hc, ht, hp,
            researchRequestOf]
        | ok j =>
          simp [startResearchHandler, campaignContextPayload, hc, ht, hp,
            researchRequestOf]

/-- Witness for C8: a non-empty context that fails to parse blocks the
request and reports the parse error. -/
theorem startResearch_invalid_context_gate_witness :
    startResearchHandler (fun _ => none) (fun _ => none)
        (fun _ => Except.error "Unexpected token x")
        ⟨none, none, none, none, some "x"⟩ =
      ResearchOutcome.invalidContext ("Invalid context JSON: " ++ "Unexpected token x") :=
  (startResearch_invalid_context_gate (fun _ => none) (fun _ => none)
      (fun _ => Except.error "Unexpected token x")
      ⟨none, none, none, none, some "x"⟩).1 "x" "Unexpected token x" rfl
    (by decide) rfl

/-- C9: every issued research-campaign body has all five fields populated
with concrete defaults when the form inputs are absent, empty or
unparseable: the goal falls back to the Cyrillic literal, the optimization
target to `topological_winding`, the target value to 0 when `parseFloat`
yields NaN (or the input is absent or empty, given `parseFloat` maps the
fallback string `0` to 0), the step count to 5 when `parseInt` yields NaN
(or the input is absent or empty, given `parseInt` maps the fallback
string `5` to 5), and the context to the empty object; the goal and the
optimization target are never empty strings. -/
theorem researchCampaign_body_defaults (parseFloatJs : String → Option ℚ)
    (parseIntTen : String → Option Int) (parseJson : String → Except String Json)
    (inp : ResearchFormInputs) (msg : String) (body : ResearchCampaignBody)
    (h : startResearchHandler parseFloatJs parseIntTen parseJson inp =
      ResearchOutcome.issued msg body) :
    ((inp.goal = none ∨ ∃ s, inp.goal = some s ∧ jsTrim s = "") →
      body.goal = campaignDefaultGoal)
    ∧ campaignDefaultGoal = "Достичь topological_winding = 9.0000"
    ∧ ((inp.target = none ∨ ∃ s, inp.target = some s ∧ jsTrim s = "") →
      body.optimization_target = "topological_winding")
    ∧ (parseFloatJs (jsStringOr inp.targetValue "0") = none → body.target_value = 0)
    ∧ ((inp.targetValue = none ∨ inp.targetValue = some "") →
        parseFloatJs "0" = some 0 → body.target_value = 0)
    ∧ (parseIntTen (jsStringOr inp.steps "5") = none → body.max_steps = 5)
    ∧ ((inp.steps = none ∨ inp.steps = some "") →
        parseIntTen "5" = some 5 → body.max_steps = 5)
    ∧ ((inp.context = none ∨ ∃ s, inp.context = some s ∧ jsTrim s = "") →
      body.context = Json.obj [])
    ∧ body.goal ≠ "" ∧ body.optimization_target ≠ "" := by
  cases hres : campaignContextPayload parseJson inp.context with
  | error e =>
    unfold startResearchHandler at h
    rw [hres] at h
    cases h
  | ok ctx =>
    unfold startResearchHandler at h
    rw [hres] at h
    injection h with hmsg hbody
    subst hbody
    refine ⟨fun hg => campaignGoalField_default inp.goal hg, rfl,
      fun ht => campaignTargetField_default inp.target ht, ?_, ?_, ?_, ?_, ?_,
      campaignGoalField_ne_empty inp.goal, campaignTargetField_ne_empty inp.target⟩
    · intro hp
      simp [campaignTargetValueField, hp]
    · rintro (h0 | h0) hpf <;>
        simp [campaignTargetValueField, jsStringOr, h0, hpf]
    · intro hp
      simp [campaignMaxStepsField, hp]
    · rintro (h0 | h0) hpi <;>
        simp [campaignMaxStepsField, jsStringOr, h0, hpi]
    · intro hctx
      have h2 := campaignContextPayload_empty parseJson inp.context hctx
      rw [hres] at h2
      exact Except.ok.inj h2

/-- Witness for C9: with every input absent the issued body carries all
five defaults. -/
theorem researchCampaign_body_defaults_witness :
    (⟨campaignDefaultGoal, "topological_winding", 0, 5, Json.obj []⟩ :
        ResearchCampaignBody).goal = campaignDefaultGoal :=
  (researchCampaign_body_defaults (fun _ => none) (fun _ => none)
      (fun _ => Except.error "e") ⟨none, none, none, none, none⟩
      "Running research campaign…"
      ⟨campaignDefaultGoal, "topological_winding", 0, 5, Json.obj []⟩ rfl).1
    (Or.inl rfl)

/-- C10 counterexample: an ok response whose body is not valid JSON makes
the api helper reject — `res.json()` throws — even though the response is
ok, so the helper does not throw only on non-ok responses. -/
theorem api_rejects_on_ok_response_with_invalid_json :
    api ⟨true, "OK", "not json",
        Except.error "Unexpected token o in JSON at position 0"⟩ =
      Except.error (ApiFailure.jsonParseError
        "Unexpected token o in JSON at position 0")
    ∧ (⟨true, "OK", "not json",
        Except.error "Unexpected token o in JSON at position 0"⟩ : JsResponse).ok
        = true :=
  ⟨rfl, rfl⟩

/-- C10 amended: the api helper fails exactly when the response is not ok
or the ok response body fails to parse as JSON; on a non-ok response it
throws an Error whose message is the body text when non-empty and the
statusText otherwise; on an ok response whose body parses it returns the
parsed JSON, and the outcome then depends only on the parse outcome — the
body text is read as plain text only in the non-ok branch. -/
theorem api_spec (res : JsResponse) :
    ((∃ f, api res = Except.error f) ↔
        (res.ok = false ∨ ∃ m, res.jsonBody = Except.error m))
    ∧ (res.ok = false →
        api res = Except.error (ApiFailure.httpError
          (if res.bodyText = "" then res.statusText else res.bodyText)))
    ∧ (∀ j, res.ok = true → res.jsonBody = Except.ok j → api res = Except.ok j)
    ∧ (∀ res2 : JsResponse, res.ok = true → res2.ok = true →
        res.jsonBody = res2.jsonBody → api res = api res2) := by
  obtain ⟨ok, st, bt, jb⟩ := res
  refine ⟨?_, ?_, ?_, ?_⟩
  · cases ok with
    | false => simp [api]
    | true =>
      cases jb with
      | ok j => simp [api]
      | error m => simp [api]
  · intro h1
    have h2 : ok = false := h1
    subst h2
    rfl
  · intro j h1 h2
    have h3 : ok = true := h1
    subst h3
    have h4 : jb = Except.ok j := h2
    subst h4
    rfl
  · rintro ⟨ok2, st2, bt2, jb2⟩ h1 h2 h3
    have h4 : ok = true := h1
    subst h4
    have h5 : ok2 = true := h2
    subst h5
    have h6 : jb = jb2 := h3
    subst h6
    rfl

/-- Witness for C10 (amended): a non-ok response with an empty body throws
with the statusText as message. -/
theorem api_spec_witness :
    api ⟨false, "Bad Request", "", Except.error "x"⟩ =
      Except.error (ApiFailure.httpError
        (if ("" : String) = "" then "Bad Request" else "")) :=
  (api_spec ⟨false, "Bad Request", "", Except.error "x"⟩).2.1 rfl

end App
